import Mathlib

/-!
Shallow embedding of the memory/synchronization core of the `flanergide`
backend (Python), covering:

* `app/services/vector_store.py` — event validation, text projection for
  embedding, and the `recent` pagination query;
* `app/services/state_manager.py` — mood state, blog-post cache merge, and
  the thoughts digest, with the atomic-write versus plain-write distinction;
* `app/api/routes/sync.py` — the pull/push synchronization endpoints;
* `app/api/routes/memory.py` — the `recent` route's limit/offset handling.

File contents are modelled as explicit values threaded through the
functions; Python exceptions become `Except`; the external embedding index
is modelled as always accepting an `add` (it is an opaque collaborator).
Python's stable `list.sort(key=…, reverse=True)` is modelled by
`List.insertionSort` with the "key of second ≤ key of first" relation, which
is the same stable descending sort.
-/

namespace Flanergide

/-- JSON-like payload values appearing in event `data` dictionaries. -/
inductive JsonVal where
  | str : String → JsonVal
  | int : Int → JsonVal
  | bool : Bool → JsonVal
deriving DecidableEq

/-- Python `str(v)` as used by f-string interpolation of a payload value. -/
def pyStr : JsonVal → String
  | .str s => s
  | .int n => toString n
  | .bool b => if b then "True" else "False"

/-- Python truthiness of a payload value (`if success else` in the source). -/
def pyTruthy : JsonVal → Bool
  | .str s => s ≠ ""
  | .int n => n ≠ 0
  | .bool b => b

/-- Python `json.dumps` rendering of a single value (payload strings are modelled
without characters that need escaping). -/
def jsonValDump : JsonVal → String
  | .str s => "\"" ++ s ++ "\""
  | .int n => toString n
  | .bool b => if b then "true" else "false"

/-- Python `json.dumps` of a `data` dictionary, e.g. `\x7b"a": 1\x7d`. -/
def jsonDumps (d : List (String × JsonVal)) : String :=
  "\x7b" ++ String.intercalate ", "
    (d.map fun kv => "\"" ++ kv.1 ++ "\": " ++ jsonValDump kv.2) ++ "\x7d"

/-- Python `d.get(k, dflt)` on a payload dictionary. -/
def dictGet (d : List (String × JsonVal)) (k : String) (dflt : JsonVal) : JsonVal :=
  (d.lookup k).getD dflt

/-- An incoming event as the routes hand it to the vector store:
the `type` and `timestamp` keys may be absent, `data` defaults to empty. -/
structure Event where
  type : Option String
  data : List (String × JsonVal)
  timestamp : Option Int
deriving DecidableEq

/-- Python `not event.get("type")`: the key is absent or maps to `""`. -/
def typeFalsy (event : Event) : Bool :=
  match event.type with
  | none => true
  | some s => s == ""

/-- Model of `VectorStore._event_to_text`: deterministic per-kind template, with a
generic `kind: json(payload)` fallback for unknown kinds. -/
def event_to_text (event : Event) : String :=
  let event_type := event.type.getD "unknown"
  let data := event.data
  if event_type == "app_launch" then
    let app := pyStr (dictGet data "app" (.str "unknown"))
    let duration := pyStr (dictGet data "duration_seconds" (.int 0))
    "App launch: " ++ app ++ " (duration: " ++ duration ++ " seconds)"
  else if event_type == "notification" then
    let source := pyStr (dictGet data "source" (.str "unknown"))
    let subject := pyStr (dictGet data "subject" (.str ""))
    "Notification from " ++ source ++ ": " ++ subject
  else if event_type == "minigame_complete" then
    let game_type := pyStr (dictGet data "game_type" (.str "unknown"))
    let status := if pyTruthy (dictGet data "success" (.bool false)) then
      "completed successfully" else "failed"
    "Mini-game " ++ game_type ++ " " ++ status
  else if event_type == "user_interaction" then
    let action := pyStr (dictGet data "action" (.str "unknown"))
    "User interaction: " ++ action
  else if event_type == "avatar_mood_change" then
    let mood := pyStr (dictGet data "mood" (.str "unknown"))
    "Avatar mood changed to " ++ mood
  else
    event_type ++ ": " ++ jsonDumps data

/-- A stored event: the id plus the metadata and document the store adds to
the embedding index. -/
structure StoredEvent where
  id : String
  type : String
  device_id : String
  timestamp : Int
  text : String
deriving DecidableEq

/-- Model of `VectorStore.insert`: requires a truthy `type`, renders the text
projection, stamps metadata (timestamp defaulting to the server clock
`now`), and stores under a fresh server-generated id `freshId`.
Raises `ValueError` (modelled as `Except.error`) on a missing/empty type;
the message is the source's, transliterated without its quote marks. -/
def insert (event : Event) (device_id : String) (now : Int) (freshId : String) :
    Except String StoredEvent :=
  if typeFalsy event then
    Except.error "Event must have type"
  else
    Except.ok
      { id := freshId
        type := event.type.getD "unknown"
        device_id := device_id
        timestamp := event.timestamp.getD now
        text := event_to_text event }

/-- The per-event view `recent` builds from ids and metadata. -/
structure EventView where
  id : String
  type : String
  timestamp : Int
  device_id : String
deriving DecidableEq

/-- Descending-timestamp ordering used by `recent`'s
`events.sort(key=lambda x: x["timestamp"], reverse=True)`. -/
def tsDesc (a b : EventView) : Prop := b.timestamp ≤ a.timestamp

instance : DecidableRel tsDesc := fun a b =>
  inferInstanceAs (Decidable (b.timestamp ≤ a.timestamp))

instance : IsTotal EventView tsDesc := ⟨fun a b => le_total b.timestamp a.timestamp⟩

instance : IsTrans EventView tsDesc := ⟨fun _ _ _ h1 h2 => le_trans h2 h1⟩

/-- Project a stored event to the dictionary `recent` returns for it. -/
def toView (e : StoredEvent) : EventView :=
  { id := e.id, type := e.type, timestamp := e.timestamp, device_id := e.device_id }

/-- Model of `VectorStore.recent`: fetch the whole set (optionally filtered by exact
type), sort by timestamp descending (stable), slice
`[offset, offset+limit)`, and return the slice with the pre-slice total. -/
def recent (stored : List StoredEvent) (limit : Nat) (offset : Nat)
    (type_filter : Option String) : List EventView × Nat :=
  let filtered := match type_filter with
    | some t => stored.filter (fun (e : StoredEvent) => e.type == t)
    | none => stored
  let events := filtered.map toView
  let sorted := List.insertionSort tsDesc events
  let total := sorted.length
  ((sorted.drop offset).take limit, total)

/-! ### State manager (`app/services/state_manager.py`) -/

/-- Which file-write primitive a persistence step used: `_atomic_write_json`
(temp file beside the target, then `os.replace`) or a plain
`open(path, "w"); write(...)` overwrite. -/
inductive WriteKind where
  | atomicTempRename
  | plainOverwrite
deriving DecidableEq

/-- Model of `StateManager._atomic_write_json`: the written content, tagged with the
temp-file-then-rename primitive. -/
def atomic_write_json {α : Type} (data : α) : α × WriteKind :=
  (data, WriteKind.atomicTempRename)

/-- The set `StateManager.VALID_MOODS`. -/
def VALID_MOODS : List String :=
  ["happy", "sad", "focused", "tired", "anxious", "neutral"]

/-- Contents of `current_mood.txt`. -/
structure MoodData where
  mood : String
  updated_at : Int
  context : String
deriving DecidableEq

/-- Model of `StateManager.update_mood`: reject moods outside `VALID_MOODS` with a
`ValueError` (raised before any write), otherwise build the new record and
persist it with `_atomic_write_json`. Returns the record returned to the
caller, the mood-file contents after the call (unchanged on error), and the
write primitive used, if any write happened. -/
def update_mood (mood : String) (context : Option String) (now : Int)
    (file : MoodData) : Except String MoodData × MoodData × Option WriteKind :=
  if mood ∈ VALID_MOODS then
    let data : MoodData := { mood := mood, updated_at := now, context := context.getD "" }
    let written := atomic_write_json data
    (Except.ok data, written.1, some written.2)
  else
    (Except.error ("Invalid mood: " ++ mood), file, none)

/-- A cached blog post as a Python dictionary: every key used by
`update_blog_cache` may be absent. (`published_at` is unused by the merge
and omitted.) -/
structure BlogPost where
  url : Option String
  title : Option String
  summary : Option String
  body : Option String
  scraped_at : Option Int
deriving DecidableEq

/-- Sort key `p.get("scraped_at", 0)`. -/
def scrapedKey (p : BlogPost) : Int := p.scraped_at.getD 0

/-- Descending-`scraped_at` ordering used by the merge's
`all_posts.sort(key=lambda p: p.get("scraped_at", 0), reverse=True)`. -/
def scrapedDesc (a b : BlogPost) : Prop := scrapedKey b ≤ scrapedKey a

instance : DecidableRel scrapedDesc := fun a b =>
  inferInstanceAs (Decidable (scrapedKey b ≤ scrapedKey a))

instance : IsTotal BlogPost scrapedDesc := ⟨fun a b => le_total (scrapedKey b) (scrapedKey a)⟩

instance : IsTrans BlogPost scrapedDesc := ⟨fun _ _ _ h1 h2 => le_trans h2 h1⟩

/-- One entry of the thoughts digest:
`f"**\x7btitle\x7d**\n\x7bsummary\x7d\n[Read more](\x7burl\x7d)"` with the
source's defaults for missing keys. -/
def renderPostDigest (p : BlogPost) : String :=
  let title := p.title.getD "Untitled"
  let summary := p.summary.getD ((p.body.getD "").take 200)
  let url := p.url.getD ""
  "**" ++ title ++ "**\n" ++ summary ++ "\n[Read more](" ++ url ++ ")"

/-- Python `"\n\n".join(summaries)` over the rendered digest entries. -/
def renderThoughts (ps : List BlogPost) : String :=
  String.intercalate "\n\n" (ps.map renderPostDigest)

/-- Outcome of one `update_blog_cache` call: the boolean result, the two
file contents after the call, which write primitive (if any) touched each
file, and the list of posts handed to the summarizer (empty when it was not
called). -/
structure MergeResult where
  ok : Bool
  cache : List BlogPost
  thoughts : String
  cacheWrite : Option WriteKind
  thoughtsWrite : Option WriteKind
  summarized : List BlogPost
deriving DecidableEq

/-- Model of `StateManager.update_blog_cache`: deduplicate the incoming posts by URL
against the existing cache, succeed as a no-op if nothing is new, otherwise
summarize only the new posts (when a summarizer is supplied), merge new
before existing, stable-sort by `scraped_at` descending, truncate to 50,
persist the cache with `_atomic_write_json`, and rewrite the thoughts file
(plain `open(...,"w")` write) from the first five merged posts. -/
def update_blog_cache (existing_posts : List BlogPost) (thoughts0 : String)
    (posts : List BlogPost) (summarizer : Option (List BlogPost → List BlogPost)) :
    MergeResult :=
  let existing_urls := existing_posts.map (fun p => p.url)
  let new_posts := posts.filter (fun p => ! existing_urls.contains p.url)
  if new_posts.isEmpty then
    { ok := true, cache := existing_posts, thoughts := thoughts0,
      cacheWrite := none, thoughtsWrite := none, summarized := [] }
  else
    let summarized_input := match summarizer with
      | some _ => new_posts
      | none => []
    let new_posts := match summarizer with
      | some s => s new_posts
      | none => new_posts
    let all_posts := new_posts ++ existing_posts
    let all_posts := List.insertionSort scrapedDesc all_posts
    let all_posts := all_posts.take 50
    let cacheWritten := atomic_write_json all_posts
    let thoughts_text := renderThoughts (all_posts.take 5)
    { ok := true, cache := cacheWritten.1, thoughts := thoughts_text,
      cacheWrite := some cacheWritten.2,
      thoughtsWrite := some WriteKind.plainOverwrite,
      summarized := summarized_input }

/-! ### Sync routes (`app/api/routes/sync.py`) -/

/-- The `context` block of a pull response. -/
structure SyncContext where
  last_sync : Int
  new_events_count : Nat
  server_time : Int
deriving DecidableEq

/-- A pull response: the state passthrough is kept abstract as `σ`. -/
structure SyncPullResponse (σ : Type) where
  current_state : σ
  recent_memories : List EventView
  context : SyncContext

/-- Model of `sync_pull`: fetch the combined current state, fetch the 50 most recent
events with no kind filter, filter to `timestamp > last_sync_timestamp`
only when the cursor is positive, and report the cursor, returned count and
server time in the context block. -/
def sync_pull {σ : Type} (current_state : σ) (stored : List StoredEvent)
    (last_sync_timestamp : Int) (now : Int) : SyncPullResponse σ :=
  let fetched := (recent stored 50 0 none).1
  let recent_memories :=
    if last_sync_timestamp > 0 then
      fetched.filter (fun m => m.timestamp > last_sync_timestamp)
    else
      fetched
  { current_state := current_state
    recent_memories := recent_memories
    context :=
      { last_sync := last_sync_timestamp
        new_events_count := recent_memories.length
        server_time := now } }

/-- One per-item result of a push. -/
structure SyncPushResult where
  event_index : Nat
  id : Option String
  success : Bool
  error : Option String
deriving DecidableEq

/-- A push response. -/
structure SyncPushResponse where
  stored_count : Nat
  failed_count : Nat
  results : List SyncPushResult
deriving DecidableEq

/-- The `for i, event in enumerate(push_req.events)` loop of `sync_push`:
each event is inserted independently, a failure is caught per item and
recorded with a null id and the error text truncated to 100 characters.
`fresh i` is the server-generated id for the i-th insert. -/
def push_loop (device_id : String) (now : Int) (fresh : Nat → String) :
    List Event → Nat → Nat × Nat × List SyncPushResult
  | [], _ => (0, 0, [])
  | ev :: rest, i =>
    let tail := push_loop device_id now fresh rest (i + 1)
    match insert ev device_id now (fresh i) with
    | Except.ok st =>
        (tail.1 + 1, tail.2.1,
          { event_index := i, id := some st.id, success := true, error := none } :: tail.2.2)
    | Except.error e =>
        (tail.1, tail.2.1 + 1,
          { event_index := i, id := none, success := false,
            error := some (e.take 100) } :: tail.2.2)

/-- Model of `sync_push`: run the loop over the batch and report the counts with the
per-item results. -/
def sync_push (events : List Event) (device_id : String) (now : Int)
    (fresh : Nat → String) : SyncPushResponse :=
  let r := push_loop device_id now fresh events 0
  { stored_count := r.1, failed_count := r.2.1, results := r.2.2 }

/-! ### Memory route (`app/api/routes/memory.py`) -/

/-- The limit validation in `get_recent`:
`if limit < 1 or limit > 100: limit = 20`. -/
def effective_limit (limit : Int) : Int :=
  if limit < 1 ∨ limit > 100 then 20 else limit

/-- The offset validation in `get_recent`: `if offset < 0: offset = 0`. -/
def effective_offset (offset : Int) : Int :=
  if offset < 0 then 0 else offset

/-- The `get_recent` route: validate limit and offset, then delegate to the
vector store's `recent`. -/
def get_recent_route (stored : List StoredEvent) (limit : Int) (offset : Int)
    (type_filter : Option String) : List EventView × Nat :=
  recent stored (effective_limit limit).toNat (effective_offset offset).toNat type_filter

/-- Modelled from the spec: the claimed server-side clamp of the limit to
the range `[1,100]` (nearest-bound clamping), for comparison with
`effective_limit`. -/
def specClampLimit (limit : Int) : Int :=
  max 1 (min limit 100)

/-- Modelled from the spec: the pull events the spec describes — the
fetched up-to-50 most recent events filtered to those with timestamp
strictly greater than the cursor, for every cursor value. -/
def specPullEvents (stored : List StoredEvent) (last_sync_timestamp : Int) :
    List EventView :=
  ((recent stored 50 0 none).1).filter (fun m => m.timestamp > last_sync_timestamp)

/-! ### Derived views used to state the theorems -/

/-- The filtered set `recent` fetches before sorting and slicing. -/
def filteredSet (stored : List StoredEvent) (type_filter : Option String) :
    List StoredEvent :=
  match type_filter with
  | some t => stored.filter (fun (e : StoredEvent) => e.type == t)
  | none => stored

/-- The filtered set, projected and sorted by timestamp descending. -/
def sortedViews (stored : List StoredEvent) (type_filter : Option String) :
    List EventView :=
  List.insertionSort tsDesc ((filteredSet stored type_filter).map toView)

/-- The five event kinds with a dedicated text template in
`_event_to_text`. -/
def knownTemplateKinds : List String :=
  ["app_launch", "notification", "minigame_complete", "user_interaction",
   "avatar_mood_change"]

/-- The deduplicated new posts a merge call will add (the source's
`new_posts` before summarization). -/
def trulyNew (existing_posts : List BlogPost) (posts : List BlogPost) : List BlogPost :=
  posts.filter (fun p => ! (existing_posts.map (fun q => q.url)).contains p.url)

/-! ### Concrete fixtures for witnesses and counterexamples -/

/-- A cached post with url `u<n>` and the given `scraped_at`. -/
def mkPostW (u : Nat) (k : Int) : BlogPost :=
  { url := some ("u" ++ toString u), title := some "t", summary := none,
    body := some "b", scraped_at := some k }

/-- A fixture of 49 cached posts scraped at time 200. -/
def cache0W : List BlogPost := (List.range 49).map (fun i => mkPostW (100 + i) 200)

/-- Two fresh posts scraped at time 100, urls `u1` and `u2`. -/
def pairW : List BlogPost := [mkPostW 1 100, mkPostW 2 100]

/-- A fixture of 60 distinct fresh posts with distinct scraped times. -/
def posts60W : List BlogPost := (List.range 60).map (fun i => mkPostW i (i : Int))

/-- A stored event with id/timestamp derived from `n`. -/
def mkStoredW (n : Nat) : StoredEvent :=
  { id := toString n, type := "t", device_id := "d", timestamp := (n : Int), text := "x" }

/-- A fixture of 21 stored events. -/
def stored21W : List StoredEvent := (List.range 21).map mkStoredW

/-- A fixture of 50 stored events. -/
def stored50W : List StoredEvent := (List.range 50).map mkStoredW

/-- Three stored events at timestamps 100, 200, 300. -/
def stored3W : List StoredEvent := [mkStoredW 100, mkStoredW 200, mkStoredW 300]

/-- A stored event at timestamp 0. -/
def e0W : StoredEvent :=
  { id := "a", type := "t", device_id := "d", timestamp := 0, text := "x" }

/-- A well-formed incoming event. -/
def okEventW : Event :=
  { type := some "user_interaction", data := [("action", JsonVal.str "tap")],
    timestamp := some 1 }

/-- A malformed incoming event (empty type). -/
def badEventW : Event := { type := some "", data := [], timestamp := none }

/-- A push batch of three events whose second is malformed. -/
def pushBatchW : List Event := [okEventW, badEventW, okEventW]

/-- Server-generated ids for the push fixture. -/
def pushIdsW (i : Nat) : String := "id" ++ toString i

/-! ### Shared helper lemmas -/

/-- In a sorted list, every element of the kept prefix is related to every
element of the dropped suffix. -/
theorem sorted_rel_take_drop {α : Type} {r : α → α → Prop} {l : List α}
    (h : List.Pairwise r l) (n : Nat) :
    ∀ a ∈ l.take n, ∀ b ∈ l.drop n, r a b := by
  have h2 : List.Pairwise r (l.take n ++ l.drop n) := by
    rw [List.take_append_drop]; exact h
  exact (List.pairwise_append.mp h2).2.2

/-! ### Claim theorems -/

/-- C6: for every invalid mood value (one outside
`{happy, sad, focused, tired, anxious, neutral}`), `update_mood` fails with
a validation error and leaves the previously persisted mood file completely
unchanged; for every valid mood the singleton mood state is overwritten
wholesale via the atomic temp-file-then-rename write. -/
theorem update_mood_validation (mood : String) (context : Option String)
    (now : Int) (file : MoodData) :
    (mood ∉ VALID_MOODS →
      (∃ e, (update_mood mood context now file).1 = Except.error e) ∧
      (update_mood mood context now file).2.1 = file ∧
      (update_mood mood context now file).2.2 = none) ∧
    (mood ∈ VALID_MOODS →
      (update_mood mood context now file).1 =
        Except.ok { mood := mood, updated_at := now, context := context.getD "" } ∧
      (update_mood mood context now file).2.1 =
        { mood := mood, updated_at := now, context := context.getD "" } ∧
      (update_mood mood context now file).2.2 = some WriteKind.atomicTempRename) := by
  by_cases h : mood ∈ VALID_MOODS
  · exact ⟨fun hc => absurd h hc, fun _ => by simp [update_mood, atomic_write_json, h]⟩
  · exact ⟨fun _ => by simp [update_mood, h], fun hc => absurd hc h⟩

/-- Witness for C6: `update_mood "ecstatic"` fails and leaves the old mood
record readable; `update_mood "focused"` writes atomically. -/
theorem update_mood_validation_witness :
    "ecstatic" ∉ VALID_MOODS ∧
    (update_mood "ecstatic" none 5 { mood := "neutral", updated_at := 0, context := "" }).2.1 =
      { mood := "neutral", updated_at := 0, context := "" } ∧
    "focused" ∈ VALID_MOODS ∧
    (update_mood "focused" none 5 { mood := "neutral", updated_at := 0, context := "" }).2.2 =
      some WriteKind.atomicTempRename := by
  refine ⟨by decide, ?_, by decide, ?_⟩
  · exact ((update_mood_validation "ecstatic" none 5
      { mood := "neutral", updated_at := 0, context := "" }).1 (by decide)).2.1
  · exact ((update_mood_validation "focused" none 5
      { mood := "neutral", updated_at := 0, context := "" }).2 (by decide)).2.2

/-- C10: an event carrying a non-empty kind but no timestamp field is still
inserted successfully, and the stored metadata timestamp defaults to the
server's current time at insertion. -/
theorem insert_timestamp_defaults_to_now (event : Event) (device_id : String)
    (now : Int) (freshId : String) (t : String)
    (ht : event.type = some t) (hne : t ≠ "") (hts : event.timestamp = none) :
    insert event device_id now freshId =
      Except.ok { id := freshId, type := t, device_id := device_id,
                  timestamp := now, text := event_to_text event } := by
  have hf : typeFalsy event = false := by simp [typeFalsy, ht, hne]
  simp [insert, hf, ht, hts]

/-- Witness for C10 at a concrete timestamp-less event. -/
theorem insert_timestamp_defaults_to_now_witness :
    insert { type := some "user_interaction", data := [], timestamp := none } "d" 42 "id0" =
      Except.ok { id := "id0", type := "user_interaction", device_id := "d",
                  timestamp := 42,
                  text := event_to_text
                    { type := some "user_interaction", data := [], timestamp := none } } :=
  insert_timestamp_defaults_to_now _ "d" 42 "id0" "user_interaction" rfl (by decide) rfl

/-- C9: `insert` raises a validation error exactly when the event's kind is
empty or missing, never returns an id for a failed insert, and for a kind
with no per-kind template the text projection falls back to the generic
`kind: json(payload)` rendering. -/
theorem insert_validation_and_text_fallback (event : Event) (device_id : String)
    (now : Int) (freshId : String) :
    ((∃ e, insert event device_id now freshId = Except.error e) ↔
      (event.type = none ∨ event.type = some "")) ∧
    (∀ st, insert event device_id now freshId = Except.ok st →
      event.type ≠ none ∧ event.type ≠ some "") ∧
    (event.type.getD "unknown" ∉ knownTemplateKinds →
      event_to_text event =
        event.type.getD "unknown" ++ ": " ++ jsonDumps event.data) := by
  have hiff : typeFalsy event = true ↔ (event.type = none ∨ event.type = some "") := by
    cases h : event.type with
    | none => simp [typeFalsy, h]
    | some s => simp [typeFalsy, h]
  refine ⟨⟨?_, ?_⟩, ?_, ?_⟩
  · rintro ⟨e, he⟩
    by_cases hf : typeFalsy event = true
    · exact hiff.mp hf
    · simp [insert, hf] at he
  · intro h
    exact ⟨"Event must have type", by simp [insert, hiff.mpr h]⟩
  · intro st hst
    by_cases hf : typeFalsy event = true
    · simp [insert, hf] at hst
    · have hnot : ¬ (event.type = none ∨ event.type = some "") := fun hc =>
        hf (hiff.mpr hc)
      push_neg at hnot
      exact hnot
  · intro h
    simp only [knownTemplateKinds, List.mem_cons, List.not_mem_nil, or_false,
      not_or] at h
    obtain ⟨h1, h2, h3, h4, h5⟩ := h
    simp [event_to_text, h1, h2, h3, h4, h5]

/-- Witness for C9: a missing-type event fails; an unknown kind renders via
the generic fallback. -/
theorem insert_validation_and_text_fallback_witness :
    (∃ e, insert badEventW "d" 0 "id0" = Except.error e) ∧
    ("weird" : String) ∉ knownTemplateKinds ∧
    event_to_text { type := some "weird", data := [("a", JsonVal.int 1)],
                    timestamp := none } =
      "weird: \x7b\"a\": 1\x7d" := by
  refine ⟨?_, by decide, ?_⟩
  · exact (insert_validation_and_text_fallback badEventW "d" 0 "id0").1.mpr (Or.inr rfl)
  · have h := (insert_validation_and_text_fallback
      { type := some "weird", data := [("a", JsonVal.int 1)], timestamp := none }
      "d" 0 "id0").2.2 (by decide)
    rw [h]; rfl

/-- C7: `recent` fetches the entire filtered set, sorts it by timestamp
descending, returns the slice `[offset, offset+limit)` and reports the
filtered-set size (not the slice size) as the total; on a 50-item filtered
set, `recent(limit=10, offset=45)` returns the last 5 items and
`total=50`. -/
theorem recent_pagination_correct (stored : List StoredEvent) (limit offset : Nat)
    (tf : Option String) :
    (recent stored limit offset tf).2 = (filteredSet stored tf).length ∧
    (recent stored limit offset tf).1 =
      ((sortedViews stored tf).drop offset).take limit ∧
    List.Sorted tsDesc (recent stored limit offset tf).1 ∧
    (recent stored limit offset tf).1.length =
      min limit ((filteredSet stored tf).length - offset) ∧
    ((filteredSet stored tf).length = 50 → limit = 10 → offset = 45 →
      (recent stored limit offset tf).1.length = 5 ∧
      (recent stored limit offset tf).1 = (sortedViews stored tf).drop 45) := by
  have hr : recent stored limit offset tf =
      (((sortedViews stored tf).drop offset).take limit,
        (sortedViews stored tf).length) := rfl
  have hlen : (sortedViews stored tf).length = (filteredSet stored tf).length := by
    rw [sortedViews, List.length_insertionSort, List.length_map]
  have hsorted : List.Sorted tsDesc (sortedViews stored tf) :=
    List.sorted_insertionSort tsDesc _
  have hplen : (((sortedViews stored tf).drop offset).take limit).length =
      min limit ((filteredSet stored tf).length - offset) := by
    rw [List.length_take, List.length_drop, hlen]
  refine ⟨by rw [hr, hlen], by rw [hr], ?_, by rw [hr]; exact hplen, ?_⟩
  · rw [hr]
    exact hsorted.sublist ((List.take_sublist _ _).trans (List.drop_sublist _ _))
  · intro h50 hl ho
    subst hl; subst ho
    refine ⟨?_, ?_⟩
    · rw [hr]
      simp only [hplen, h50]
      decide
    · rw [hr]
      apply List.take_of_length_le
      rw [List.length_drop, hlen, h50]
      omega

/-- Witness for C7: the 10/45 slice of a 50-event store. -/
theorem recent_pagination_correct_witness :
    (filteredSet stored50W none).length = 50 ∧
    (recent stored50W 10 45 none).1.length = 5 ∧
    (recent stored50W 10 45 none).2 = 50 := by
  have h := recent_pagination_correct stored50W 10 45 none
  refine ⟨by decide, (h.2.2.2.2 (by decide) rfl rfl).1, ?_⟩
  rw [h.1]; decide

/-- C8 counterexample: the `get_recent` route does not clamp an oversized
limit to 100 — it replaces it with the default 20, observably returning 20
rather than 21 items from a 21-event store. -/
theorem get_recent_limit_not_clamped_cex :
    (get_recent_route stored21W 150 0 none).1.length = 20 ∧
    (recent stored21W (specClampLimit 150).toNat 0 none).1.length = 21 ∧
    (get_recent_route stored21W 150 0 none).1.length ≠
      (recent stored21W (specClampLimit 150).toNat 0 none).1.length := by
  refine ⟨by decide, by decide, by decide⟩

/-- C8 amended: the route replaces an out-of-range limit (below 1 or above
100) with the default 20 — a value inside `[1,100]` — keeps in-range limits
unchanged, clamps a negative offset to 0 rather than rejecting the request,
and delegates to the Event Store's `recent` with those effective values. -/
theorem get_recent_limit_defaulted (stored : List StoredEvent)
    (limit offset : Int) (tf : Option String) :
    get_recent_route stored limit offset tf =
      recent stored (effective_limit limit).toNat (effective_offset offset).toNat tf ∧
    1 ≤ effective_limit limit ∧ effective_limit limit ≤ 100 ∧
    ((limit < 1 ∨ limit > 100) → effective_limit limit = 20) ∧
    (1 ≤ limit → limit ≤ 100 → effective_limit limit = limit) ∧
    0 ≤ effective_offset offset ∧
    (offset < 0 → effective_offset offset = 0) ∧
    (0 ≤ offset → effective_offset offset = offset) := by
  refine ⟨rfl, ?_, ?_, ?_, ?_, ?_, ?_, ?_⟩ <;>
    simp only [effective_limit, effective_offset] <;> intros <;> split_ifs <;> omega

/-- Witness for C8 amended: limit 150 becomes 20, offset −5 becomes 0. -/
theorem get_recent_limit_defaulted_witness :
    ((150 : Int) < 1 ∨ (150 : Int) > 100) ∧ effective_limit 150 = 20 ∧
    (-5 : Int) < 0 ∧ effective_offset (-5) = 0 := by
  have h := get_recent_limit_defaulted [] 150 (-5) none
  exact ⟨Or.inr (by norm_num), h.2.2.2.1 (Or.inr (by norm_num)), by norm_num,
    h.2.2.2.2.2.2.1 (by norm_num)⟩

/-- C5 counterexample: with cursor 0 and a stored event at timestamp 0, the
code applies no filter at all (the filter only runs for positive cursors)
and returns the event, while filtering to `timestamp > 0` — as claimed for
every cursor value — would exclude it. -/
theorem sync_pull_zero_cursor_cex :
    (sync_pull () [e0W] 0 17).recent_memories ≠ specPullEvents [e0W] 0 ∧
    (sync_pull () [e0W] 0 17).recent_memories.length = 1 ∧
    (specPullEvents [e0W] 0).length = 0 := by
  refine ⟨by decide, by decide, by decide⟩

/-- C5 amended: pull fetches the combined current state and the up-to-50
most recent events (no kind filter) and always returns a context block with
the input cursor, the returned-event count and the server time; whenever
the cursor is positive the events are filtered to
`timestamp > last_sync_timestamp`, and a cursor ≤ 0 disables the filter. -/
theorem sync_pull_filtering {σ : Type} (cs : σ) (stored : List StoredEvent)
    (cursor : Int) (now : Int) :
    (cursor > 0 → (sync_pull cs stored cursor now).recent_memories =
      specPullEvents stored cursor) ∧
    (cursor ≤ 0 → (sync_pull cs stored cursor now).recent_memories =
      (recent stored 50 0 none).1) ∧
    (sync_pull cs stored cursor now).current_state = cs ∧
    (sync_pull cs stored cursor now).recent_memories.length ≤ 50 ∧
    (sync_pull cs stored cursor now).context =
      { last_sync := cursor,
        new_events_count := (sync_pull cs stored cursor now).recent_memories.length,
        server_time := now } := by
  have hfetch : (recent stored 50 0 none).1.length ≤ 50 := by
    have he : (recent stored 50 0 none).1 = ((sortedViews stored none).drop 0).take 50 := rfl
    rw [he, List.length_take]
    exact min_le_left _ _
  have hrm : (sync_pull cs stored cursor now).recent_memories =
      (if cursor > 0 then
        ((recent stored 50 0 none).1).filter (fun m => m.timestamp > cursor)
      else (recent stored 50 0 none).1) := rfl
  refine ⟨?_, ?_, rfl, ?_, rfl⟩
  · intro hc
    rw [hrm, if_pos hc]; rfl
  · intro hc
    rw [hrm, if_neg (not_lt.mpr hc)]
  · rw [hrm]
    by_cases hc : cursor > 0
    · rw [if_pos hc]
      exact le_trans (List.length_filter_le _ _) hfetch
    · rw [if_neg hc]
      exact hfetch

/-- Witness for C5 amended: stored events at 100/200/300 with cursor 150
yield exactly the events at 300 and 200. -/
theorem sync_pull_filtering_witness :
    (150 : Int) > 0 ∧
    (sync_pull () stored3W 150 999).recent_memories = specPullEvents stored3W 150 ∧
    (specPullEvents stored3W 150).map (fun m => m.timestamp) = [300, 200] := by
  exact ⟨by norm_num, (sync_pull_filtering () stored3W 150 999).1 (by norm_num), by decide⟩

set_option maxRecDepth 8192

/-- A Python slice `s[:n]` keeps at most n characters. -/
theorem take_length_le_model (s : String) (n : Nat) : (s.take n).length ≤ n := by
  have h : (s.take n).data.length ≤ n := by
    rw [String.data_take]
    simp
  exact h

/-- Each push-loop step accounts one result per event: the counts sum to
the batch length, there is one per-item result per event, and each result
records either a success with an id or a failure with a null id and an
error of at most 100 characters. -/
theorem push_loop_spec (device_id : String) (now : Int) (fresh : Nat → String)
    (events : List Event) : ∀ (i : Nat),
    (push_loop device_id now fresh events i).1 +
      (push_loop device_id now fresh events i).2.1 = events.length ∧
    (push_loop device_id now fresh events i).2.2.length = events.length ∧
    (∀ res ∈ (push_loop device_id now fresh events i).2.2,
      (res.success = false → res.id = none ∧
        ∃ m, res.error = some m ∧ m.length ≤ 100) ∧
      (res.success = true → res.id ≠ none ∧ res.error = none)) := by
  induction events with
  | nil =>
    intro i
    simp [push_loop]
  | cons ev rest ih =>
    intro i
    obtain ⟨ih1, ih2, ih3⟩ := ih (i + 1)
    cases hins : insert ev device_id now (fresh i) with
    | ok st =>
      have heq : push_loop device_id now fresh (ev :: rest) i =
          ((push_loop device_id now fresh rest (i + 1)).1 + 1,
           (push_loop device_id now fresh rest (i + 1)).2.1,
           { event_index := i, id := some st.id, success := true, error := none } ::
             (push_loop device_id now fresh rest (i + 1)).2.2) := by
        simp only [push_loop, hins]
      rw [heq]
      refine ⟨by simp only [List.length_cons]; omega, by simp [ih2], ?_⟩
      intro res hres
      rcases List.mem_cons.mp hres with h | h
      · subst h
        constructor
        · intro hfalse
          exact absurd hfalse (by simp)
        · intro _
          exact ⟨by simp, rfl⟩
      · exact ih3 res h
    | error e =>
      have heq : push_loop device_id now fresh (ev :: rest) i =
          ((push_loop device_id now fresh rest (i + 1)).1,
           (push_loop device_id now fresh rest (i + 1)).2.1 + 1,
           { event_index := i, id := none, success := false,
             error := some (e.take 100) } ::
             (push_loop device_id now fresh rest (i + 1)).2.2) := by
        simp only [push_loop, hins]
      rw [heq]
      refine ⟨by simp only [List.length_cons]; omega, by simp [ih2], ?_⟩
      intro res hres
      rcases List.mem_cons.mp hres with h | h
      · subst h
        constructor
        · intro _
          exact ⟨rfl, e.take 100, rfl, take_length_le_model e 100⟩
        · intro htrue
          exact absurd htrue (by simp)
      · exact ih3 res h

/-- C4: push inserts each of the n events independently, a failure of one
insert does not abort the batch, stored_count + failed_count = n, each
failing item's result has success=false, a null id and an error message of
at most 100 characters, and each succeeding item's result has success=true
with a non-null id. -/
theorem sync_push_partial_failure (events : List Event) (device_id : String)
    (now : Int) (fresh : Nat → String) :
    (sync_push events device_id now fresh).stored_count +
      (sync_push events device_id now fresh).failed_count = events.length ∧
    (sync_push events device_id now fresh).results.length = events.length ∧
    (∀ res ∈ (sync_push events device_id now fresh).results,
      (res.success = false → res.id = none ∧
        ∃ m, res.error = some m ∧ m.length ≤ 100) ∧
      (res.success = true → res.id ≠ none ∧ res.error = none)) :=
  push_loop_spec device_id now fresh events 0

set_option maxHeartbeats 2000000

/-- Witness for C4: pushing 3 events where the 2nd is malformed yields
stored_count=2, failed_count=1, with the middle result failed (null id) and
the outer two succeeding with non-null ids. -/
theorem sync_push_partial_failure_witness :
    (sync_push pushBatchW "d" 9 pushIdsW).stored_count = 2 ∧
    (sync_push pushBatchW "d" 9 pushIdsW).failed_count = 1 ∧
    (sync_push pushBatchW "d" 9 pushIdsW).stored_count +
      (sync_push pushBatchW "d" 9 pushIdsW).failed_count = pushBatchW.length ∧
    (sync_push pushBatchW "d" 9 pushIdsW).results.map (fun r => r.success) =
      [true, false, true] ∧
    (sync_push pushBatchW "d" 9 pushIdsW).results.map (fun r => r.id) =
      [some "id0", none, some "id2"] ∧
    ({ event_index := 1, id := none, success := false,
       error := some "Event must have type" } : SyncPushResult).id = none := by
  refine ⟨?_, ?_, ?_, ?_, ?_, ?_⟩
  · decide
  · decide
  · exact (sync_push_partial_failure pushBatchW "d" 9 pushIdsW).1
  · decide
  · decide
  · exact (((sync_push_partial_failure pushBatchW "d" 9 pushIdsW).2.2
      { event_index := 1, id := none, success := false,
        error := some "Event must have type" } (by decide)).1 rfl).1

/-- A merge with nothing truly new is the no-op record: nothing is written
and nothing is summarized. -/
theorem update_blog_cache_noop (existing : List BlogPost) (t0 : String)
    (posts : List BlogPost) (summarizer : Option (List BlogPost → List BlogPost))
    (h : (trulyNew existing posts).isEmpty = true) :
    update_blog_cache existing t0 posts summarizer =
      { ok := true, cache := existing, thoughts := t0, cacheWrite := none,
        thoughtsWrite := none, summarized := [] } := by
  have h2 : (posts.filter (fun p =>
      ! (existing.map (fun q => q.url)).contains p.url)).isEmpty = true := h
  simp only [update_blog_cache]
  rw [h2]
  rfl

/-- A merge with truly new posts and no summarizer sorts the new posts in
front of the cache, truncates to 50, rebuilds the digest from the first 5,
and records the two write primitives used. -/
theorem update_blog_cache_write_none (existing : List BlogPost) (t0 : String)
    (posts : List BlogPost) (h : (trulyNew existing posts).isEmpty = false) :
    update_blog_cache existing t0 posts none =
      { ok := true,
        cache := (List.insertionSort scrapedDesc
          (trulyNew existing posts ++ existing)).take 50,
        thoughts := renderThoughts (((List.insertionSort scrapedDesc
          (trulyNew existing posts ++ existing)).take 50).take 5),
        cacheWrite := some WriteKind.atomicTempRename,
        thoughtsWrite := some WriteKind.plainOverwrite,
        summarized := [] } := by
  have h2 : (posts.filter (fun p =>
      ! (existing.map (fun q => q.url)).contains p.url)).isEmpty = false := h
  simp only [update_blog_cache]
  rw [h2]
  simp only [trulyNew, atomic_write_json]
  rfl

/-- Same as `update_blog_cache_write_none` with a summarizer: only the
truly new posts are summarized, and the summarizer's output replaces them
in the merged list. -/
theorem update_blog_cache_write_some (existing : List BlogPost) (t0 : String)
    (posts : List BlogPost) (s : List BlogPost → List BlogPost)
    (h : (trulyNew existing posts).isEmpty = false) :
    update_blog_cache existing t0 posts (some s) =
      { ok := true,
        cache := (List.insertionSort scrapedDesc
          (s (trulyNew existing posts) ++ existing)).take 50,
        thoughts := renderThoughts (((List.insertionSort scrapedDesc
          (s (trulyNew existing posts) ++ existing)).take 50).take 5),
        cacheWrite := some WriteKind.atomicTempRename,
        thoughtsWrite := some WriteKind.plainOverwrite,
        summarized := trulyNew existing posts } := by
  have h2 : (posts.filter (fun p =>
      ! (existing.map (fun q => q.url)).contains p.url)).isEmpty = false := h
  simp only [update_blog_cache]
  rw [h2]
  simp only [trulyNew, atomic_write_json]
  rfl

/-- C1: every merge call that persists a new cache leaves it holding at
most 50 posts, ordered by `scraped_at` descending (stable sort); merging 60
distinct truly-new posts leaves exactly 50 entries — the 50 most recently
scraped, every evicted post being no newer than any kept one. -/
theorem blog_cache_retention (existing : List BlogPost) (t0 : String)
    (posts : List BlogPost) (summarizer : Option (List BlogPost → List BlogPost)) :
    ((update_blog_cache existing t0 posts summarizer).cacheWrite ≠ none →
      (update_blog_cache existing t0 posts summarizer).cache.length ≤ 50 ∧
      List.Sorted scrapedDesc (update_blog_cache existing t0 posts summarizer).cache) ∧
    (posts.length = 60 →
      (posts.map (fun p => p.url)).Nodup →
      (∀ p ∈ posts, p.url ∉ existing.map (fun q => q.url)) →
      summarizer = none →
      (update_blog_cache existing t0 posts summarizer).cache.length = 50 ∧
      (∀ a ∈ (update_blog_cache existing t0 posts summarizer).cache,
        ∀ b ∈ (List.insertionSort scrapedDesc (posts ++ existing)).drop 50,
          scrapedKey b ≤ scrapedKey a)) := by
  constructor
  · intro hw
    by_cases he : (trulyNew existing posts).isEmpty
    · rw [update_blog_cache_noop existing t0 posts summarizer he] at hw
      exact absurd rfl hw
    · have he2 : (trulyNew existing posts).isEmpty = false :=
        Bool.eq_false_iff.mpr he
      have hgoal : ∀ (merged : List BlogPost),
          (update_blog_cache existing t0 posts summarizer).cache =
            (List.insertionSort scrapedDesc merged).take 50 →
          (update_blog_cache existing t0 posts summarizer).cache.length ≤ 50 ∧
          List.Sorted scrapedDesc
            (update_blog_cache existing t0 posts summarizer).cache := by
        intro merged hm
        rw [hm]
        constructor
        · rw [List.length_take]
          exact min_le_left _ _
        · exact (List.sorted_insertionSort scrapedDesc merged).sublist
            (List.take_sublist _ _)
      cases summarizer with
      | none =>
        exact hgoal (trulyNew existing posts ++ existing)
          (by rw [update_blog_cache_write_none existing t0 posts he2])
      | some s =>
        exact hgoal (s (trulyNew existing posts) ++ existing)
          (by rw [update_blog_cache_write_some existing t0 posts s he2])
  · intro h60 _ hdisj hsum
    subst hsum
    have hnew : trulyNew existing posts = posts := by
      rw [trulyNew, List.filter_eq_self]
      intro p hp
      have hc : (existing.map (fun q => q.url)).contains p.url = false := by
        cases hcv : (existing.map (fun q => q.url)).contains p.url with
        | false => rfl
        | true => exact absurd (List.elem_iff.mp hcv) (hdisj p hp)
      rw [hc]
      rfl
    have hne : (trulyNew existing posts).isEmpty = false := by
      rw [hnew]
      cases posts with
      | nil => simp at h60
      | cons a l => rfl
    rw [update_blog_cache_write_none existing t0 posts hne, hnew]
    constructor
    · rw [List.length_take, List.length_insertionSort, List.length_append, h60]
      omega
    · exact sorted_rel_take_drop
        (List.sorted_insertionSort scrapedDesc (posts ++ existing)) 50

/-- Witness for C1: merging 60 distinct fresh posts into an empty cache
leaves exactly 50 entries. -/
theorem blog_cache_retention_witness :
    posts60W.length = 60 ∧
    (update_blog_cache [] "" posts60W none).cache.length = 50 := by
  refine ⟨by decide, ?_⟩
  exact ((blog_cache_retention [] "" posts60W none).2 (by decide) (by decide)
    (by intro p hp; simp) rfl).1

/-- If every incoming url is already cached, the merge's URL deduplication
filters everything out. -/
theorem trulyNew_eq_nil (existing posts : List BlogPost)
    (h : ∀ p ∈ posts, p.url ∈ existing.map (fun q => q.url)) :
    trulyNew existing posts = [] := by
  rw [trulyNew, List.filter_eq_nil_iff]
  intro p hp hcon
  rw [Bool.not_eq_true'] at hcon
  have hct : (existing.map (fun q => q.url)).contains p.url = true :=
    List.elem_iff.mpr (h p hp)
  rw [hct] at hcon
  exact Bool.noConfusion hcon

/-- C2 counterexample: with a 49-post cache scraped at time 200 and two
fresh posts scraped at time 100, the first merge keeps `u1` and evicts `u2`
at the 50-post cap; merging the identical pair again re-admits `u2` ahead
of `u1` (stable-sort tie order) and rewrites the cache file, so cache
contents change after the second call with the same post list. -/
theorem merge_twice_changes_cache_cex :
    (update_blog_cache (update_blog_cache cache0W "" pairW none).cache
        (update_blog_cache cache0W "" pairW none).thoughts pairW none).cache ≠
      (update_blog_cache cache0W "" pairW none).cache ∧
    (update_blog_cache (update_blog_cache cache0W "" pairW none).cache
        (update_blog_cache cache0W "" pairW none).thoughts pairW none).cacheWrite =
      some WriteKind.atomicTempRename := by
  exact ⟨by decide, by decide⟩

/-- C2 amended: merging posts whose URLs are all already cached succeeds as
a true no-op (nothing written, nothing summarized, cache unchanged); when
the first merge stays within the 50-post cap, the second merge with the
identical post list is such a no-op, so cache size and contents are
unchanged after the second call; and (without a summarizer) the cache never
acquires duplicate URLs. Under eviction at the cap the second call can
instead re-add an evicted post. -/
theorem merge_noop_and_bounded_idempotent (existing : List BlogPost) (t0 : String)
    (posts : List BlogPost) (summarizer : Option (List BlogPost → List BlogPost)) :
    ((∀ p ∈ posts, p.url ∈ existing.map (fun q => q.url)) →
      update_blog_cache existing t0 posts summarizer =
        { ok := true, cache := existing, thoughts := t0, cacheWrite := none,
          thoughtsWrite := none, summarized := [] }) ∧
    ((trulyNew existing posts).length + existing.length ≤ 50 →
      update_blog_cache (update_blog_cache existing t0 posts none).cache
          (update_blog_cache existing t0 posts none).thoughts posts none =
        { ok := true,
          cache := (update_blog_cache existing t0 posts none).cache,
          thoughts := (update_blog_cache existing t0 posts none).thoughts,
          cacheWrite := none, thoughtsWrite := none, summarized := [] }) ∧
    ((existing.map (fun q => q.url)).Nodup →
      (posts.map (fun p => p.url)).Nodup →
      ((update_blog_cache existing t0 posts none).cache.map (fun p => p.url)).Nodup) := by
  refine ⟨?_, ?_, ?_⟩
  · intro hall
    exact update_blog_cache_noop existing t0 posts summarizer
      (by rw [trulyNew_eq_nil existing posts hall]; rfl)
  · intro hlen
    by_cases he : (trulyNew existing posts).isEmpty
    · have hrec := update_blog_cache_noop existing t0 posts none he
      rw [hrec]
      show update_blog_cache existing t0 posts none = _
      exact hrec
    · have he2 : (trulyNew existing posts).isEmpty = false := Bool.eq_false_iff.mpr he
      have hw := update_blog_cache_write_none existing t0 posts he2
      rw [hw]
      have hsortlen :
          (List.insertionSort scrapedDesc (trulyNew existing posts ++ existing)).length ≤ 50 := by
        rw [List.length_insertionSort, List.length_append]
        exact hlen
      have htake : (List.insertionSort scrapedDesc
            (trulyNew existing posts ++ existing)).take 50 =
          List.insertionSort scrapedDesc (trulyNew existing posts ++ existing) :=
        List.take_of_length_le hsortlen
      have hurl : ∀ p ∈ posts, p.url ∈
          ((List.insertionSort scrapedDesc
            (trulyNew existing posts ++ existing)).take 50).map (fun q => q.url) := by
        intro p hp
        rw [htake]
        by_cases hc : (existing.map (fun q => q.url)).contains p.url = true
        · obtain ⟨q, hq, hqe⟩ := List.mem_map.mp (List.elem_iff.mp hc)
          exact List.mem_map.mpr ⟨q, (List.mem_insertionSort scrapedDesc).mpr
            (List.mem_append.mpr (Or.inr hq)), hqe⟩
        · have hcf : (existing.map (fun q => q.url)).contains p.url = false :=
            Bool.eq_false_iff.mpr hc
          have hpn : p ∈ trulyNew existing posts := by
            rw [trulyNew]
            refine List.mem_filter.mpr ⟨hp, ?_⟩
            rw [Bool.not_eq_true']
            exact hcf
          exact List.mem_map.mpr ⟨p, (List.mem_insertionSort scrapedDesc).mpr
            (List.mem_append.mpr (Or.inl hpn)), rfl⟩
      exact update_blog_cache_noop _ _ posts none
        (by rw [trulyNew_eq_nil _ posts hurl]; rfl)
  · intro hn1 hn2
    by_cases he : (trulyNew existing posts).isEmpty
    · rw [update_blog_cache_noop existing t0 posts none he]
      exact hn1
    · have he2 : (trulyNew existing posts).isEmpty = false := Bool.eq_false_iff.mpr he
      rw [update_blog_cache_write_none existing t0 posts he2]
      have hnodup_app : ((trulyNew existing posts ++ existing).map (fun p => p.url)).Nodup := by
        rw [List.map_append]
        refine List.Nodup.append ?_ hn1 ?_
        · exact hn2.sublist ((List.filter_sublist posts).map (fun p => p.url))
        · intro u hu hu2
          obtain ⟨p, hp, hpe⟩ := List.mem_map.mp hu
          have hpf := List.mem_filter.mp (by rw [trulyNew] at hp; exact hp)
          have hcf : (existing.map (fun q => q.url)).contains p.url = false := by
            have h2 := hpf.2
            rw [Bool.not_eq_true'] at h2
            exact h2
          rw [← hpe] at hu2
          have hct : (existing.map (fun q => q.url)).contains p.url = true :=
            List.elem_iff.mpr hu2
          rw [hct] at hcf
          exact Bool.noConfusion hcf
      have hsortn : ((List.insertionSort scrapedDesc
          (trulyNew existing posts ++ existing)).map (fun p => p.url)).Nodup :=
        (((List.perm_insertionSort scrapedDesc
          (trulyNew existing posts ++ existing)).map (fun p => p.url)).nodup_iff).mpr hnodup_app
      exact hsortn.sublist ((List.take_sublist 50
        (List.insertionSort scrapedDesc (trulyNew existing posts ++ existing))).map
          (fun (p : BlogPost) => p.url))

/-- Witness for C2 amended: a merge of an already-cached post is a no-op,
and a two-post merge into an empty cache followed by the identical merge is
a no-op the second time. -/
theorem merge_noop_and_bounded_idempotent_witness :
    (∀ p ∈ [mkPostW 1 100], p.url ∈ ([mkPostW 1 100].map (fun q => q.url))) ∧
    update_blog_cache [mkPostW 1 100] "t" [mkPostW 1 100] none =
      { ok := true, cache := [mkPostW 1 100], thoughts := "t", cacheWrite := none,
        thoughtsWrite := none, summarized := [] } ∧
    (trulyNew [] pairW).length + ([] : List BlogPost).length ≤ 50 ∧
    update_blog_cache (update_blog_cache [] "" pairW none).cache
        (update_blog_cache [] "" pairW none).thoughts pairW none =
      { ok := true,
        cache := (update_blog_cache [] "" pairW none).cache,
        thoughts := (update_blog_cache [] "" pairW none).thoughts,
        cacheWrite := none, thoughtsWrite := none, summarized := [] } := by
  refine ⟨by decide, ?_, by decide, ?_⟩
  · exact (merge_noop_and_bounded_idempotent
      [mkPostW 1 100] "t" [mkPostW 1 100] none).1 (by decide)
  · exact (merge_noop_and_bounded_idempotent [] "" pairW none).2.1 (by decide)

/-- C3 counterexample: a merge that adds a new post persists the cache with
the temp-file-then-rename primitive but writes the thoughts digest with a
plain overwrite — the digest write is not atomic. -/
theorem thoughts_write_not_atomic_cex :
    (update_blog_cache [] "" [mkPostW 1 100] none).thoughtsWrite =
      some WriteKind.plainOverwrite ∧
    (update_blog_cache [] "" [mkPostW 1 100] none).thoughtsWrite ≠
      some WriteKind.atomicTempRename ∧
    (update_blog_cache [] "" [mkPostW 1 100] none).cacheWrite =
      some WriteKind.atomicTempRename := by
  exact ⟨by decide, by decide, by decide⟩

/-- C3 amended: on every merge that adds at least one truly new post, the
thoughts digest is rebuilt in full from the first 5 entries of the merged
post list (title + summary + link per entry), and is persisted with a plain
file overwrite — not the temp-file-then-rename primitive, which the blog
cache itself does use. -/
theorem merge_rebuilds_digest (existing : List BlogPost) (t0 : String)
    (posts : List BlogPost) (summarizer : Option (List BlogPost → List BlogPost))
    (h : (trulyNew existing posts).isEmpty = false) :
    (update_blog_cache existing t0 posts summarizer).thoughts =
      renderThoughts ((update_blog_cache existing t0 posts summarizer).cache.take 5) ∧
    (update_blog_cache existing t0 posts summarizer).thoughtsWrite =
      some WriteKind.plainOverwrite ∧
    (update_blog_cache existing t0 posts summarizer).cacheWrite =
      some WriteKind.atomicTempRename := by
  cases summarizer with
  | none =>
    rw [update_blog_cache_write_none existing t0 posts h]
    exact ⟨rfl, rfl, rfl⟩
  | some s =>
    rw [update_blog_cache_write_some existing t0 posts s h]
    exact ⟨rfl, rfl, rfl⟩

/-- Witness for C3 amended at a one-post merge into an empty cache. -/
theorem merge_rebuilds_digest_witness :
    (trulyNew [] [mkPostW 3 7]).isEmpty = false ∧
    (update_blog_cache [] "" [mkPostW 3 7] none).thoughts =
      renderThoughts ((update_blog_cache [] "" [mkPostW 3 7] none).cache.take 5) := by
  exact ⟨by decide, (merge_rebuilds_digest [] "" [mkPostW 3 7] none (by decide)).1⟩

end Flanergide
